import Mathlib

/-!
Verification development for the pattern-core Agent Task Orchestration &
Streaming Execution Core.  The definitions below are a shallow embedding of
the Python sources under `src/api/src`; each definition's doc comment names
the source function it translates.
-/

namespace PatternCore

/-! ## Enumerations (src/api/src/task/enum/task_status_enum.py,
    src/api/src/agent/enum/agent_action_enum.py).
    Both Python enums derive from `str`; we embed their values as strings. -/

namespace TaskStatusEnum

def INIT : String := "init"

def STARTED : String := "started"

def COMPLETED : String := "completed"

def FAILED : String := "failed"

def ACTION_REQUIRED : String := "action_required"

end TaskStatusEnum

namespace AgentActionEnum

def NO_ACTION : String := "no_action"

def INPUT_TEXT : String := "input_text"

def INPUT_MEDIA : String := "input_media"

end AgentActionEnum

/-- The three `AgentActionEnum` members, in declaration order. -/
def agentActionValues : List String :=
  [AgentActionEnum.NO_ACTION, AgentActionEnum.INPUT_TEXT, AgentActionEnum.INPUT_MEDIA]

/-! ## Python error model.  Exceptions are data; a computation that can raise
    returns `Except PyError`. -/

/-- A raised Python exception: either an `AttributeError` from accessing a
missing attribute, or a generic exception with message and class name. -/
inductive PyError where
  | attributeError (attr : String)
  | exc (msg : String) (cls : String)
deriving DecidableEq, Repr

/-! ## Plan model (src/api/src/agent/services/agent_service.py lines 22-35).
    `PlanStep` is a pydantic model with exactly the fields `task`, `tools`,
    `action`; `Plan` wraps an ordered list of steps. -/

/-- `PlanStep` as defined in agent_service.py: `task : str`,
`tools : List[str]`, `action : str`.  Note it declares no
`action_description` field. -/
structure PlanStep where
  task : String
  tools : List String
  action : String
deriving DecidableEq, Repr

/-- `Plan` (agent_service.py line 30): an ordered list of `PlanStep`. -/
structure Plan where
  steps : List PlanStep
deriving DecidableEq, Repr

/-- Python attribute access `step.action_description`
(task_service.py line 50).  The pydantic model `PlanStep`
(agent_service.py lines 22-27) defines only `task`, `tools` and `action`,
so this access raises `AttributeError` for every step. -/
def getActionDescription (_ : PlanStep) : Except PyError String :=
  .error (.attributeError "action_description")

/-! ## Task / SubTask rows (src/api/src/db/models.py, as used by
    task_service.py and sub_task_service.py).  Ids are abstracted to `Nat`. -/

/-- The persisted `Task` row fields the decomposer touches. -/
structure TaskRec where
  id : Nat
  projectId : Nat
  status : String
deriving DecidableEq, Repr

/-- The persisted `SubTask` row fields set by
`SubTaskService.create_sub_task`. -/
structure SubTask where
  taskId : Nat
  projectId : Nat
  subTask : String
  status : String
  name : Option String
  priority : Option Nat
  order : Option Nat
  response : Option String
  extraData : Option String
deriving DecidableEq, Repr

/-- `SubTaskService.create_sub_task` (sub_task_service.py lines 15-69):
verifies the owning task exists with a matching project id, then persists a
new `SubTask` row; returns the new row list (old rows plus the new one). -/
def createSubTask (task : TaskRec) (taskId projectId : Nat) (rows : List SubTask)
    (text : String) (status : String) (name : Option String)
    (priority : Option Nat) (ord : Option Nat) : Except PyError (List SubTask) :=
  if task.id ≠ taskId then
    .error (.exc "Task not found or does not belong to the user" "Exception")
  else if task.projectId ≠ projectId then
    .error (.exc "Project ID does not match the task's project ID" "Exception")
  else
    .ok (rows ++ [{ taskId := taskId, projectId := projectId, subTask := text,
                    status := status, name := name, priority := priority,
                    order := ord, response := none, extraData := none }])

/-- The result dict returned by `TaskService._planner`
(task_service.py lines 73-77). -/
structure PlannerResult where
  task : String
  subTaskCreated : Bool
  actionDescriptions : String
deriving DecidableEq, Repr

/-- The action-inspection loop of `TaskService._planner`
(task_service.py lines 46-51): walks the plan steps; for each step whose
action differs from `AgentActionEnum.NO_ACTION` it increments the counter,
appends `f"\x7b_count\x7d- "` plus `step.action_description.strip()` to the
accumulator, and clears the allow flag.  Accessing `action_description`
goes through `getActionDescription`. -/
def descLoop : List PlanStep → Nat → String → Bool →
    Except PyError (Nat × String × Bool)
  | [], count, acc, allow => .ok (count, acc, allow)
  | step :: rest, count, acc, allow =>
    if step.action ≠ AgentActionEnum.NO_ACTION then
      match getActionDescription step with
      | .error e => .error e
      | .ok d =>
        descLoop rest (count + 1) (acc ++ toString (count + 1) ++ "- " ++ d.trim) false
    else
      descLoop rest count acc allow

/-- The sub-task creation loop of `TaskService._planner`
(task_service.py lines 55-66): `for index, step in enumerate(plan.steps)`
creates one sub-task with text `step.task.strip()`, status
`TaskStatusEnum.INIT`, name `None`, priority `None`, order `index + 1`. -/
def createLoop (task : TaskRec) : List PlanStep → Nat → List SubTask →
    Except PyError (List SubTask)
  | [], _, rows => .ok rows
  | step :: rest, index, rows =>
    match createSubTask task task.id task.projectId rows step.task.trim
        TaskStatusEnum.INIT none none (some (index + 1)) with
    | .error e => .error e
    | .ok rows' => createLoop task rest (index + 1) rows'

/-- `TaskService._planner` after the plan has been produced
(task_service.py lines 42-77): inspect every step; if all steps are
`NO_ACTION` create one sub-task per step (order 1..N) and leave the task
row untouched, otherwise set the task's status to `ACTION_REQUIRED`.
Returns the updated task row, the created sub-task rows and the result
dict. -/
def plannerDecompose (task : TaskRec) (taskText : String) (plan : Plan) :
    Except PyError (TaskRec × List SubTask × PlannerResult) :=
  match descLoop plan.steps 0 "" true with
  | .error e => .error e
  | .ok (_, descs, allow) =>
    if allow then
      match createLoop task plan.steps 0 [] with
      | .error e => .error e
      | .ok rows =>
        .ok (task, rows, { task := taskText, subTaskCreated := true,
                           actionDescriptions := descs })
    else
      .ok ({ task with status := TaskStatusEnum.ACTION_REQUIRED }, [],
           { task := taskText, subTaskCreated := false,
             actionDescriptions := descs })

/-- The sub-task row `_planner` persists for plan step `s` at 1-based
position `n` under task `t`. -/
def mkSubTask (t : TaskRec) (s : PlanStep) (n : Nat) : SubTask :=
  { taskId := t.id, projectId := t.projectId, subTask := s.task.trim,
    status := TaskStatusEnum.INIT, name := none, priority := none,
    order := some n, response := none, extraData := none }

/-- The list of sub-task rows created for `steps` when numbering starts
after `idx` (row for the head gets order `idx + 1`). -/
def attachOrders (t : TaskRec) : List PlanStep → Nat → List SubTask
  | [], _ => []
  | s :: rest, idx => mkSubTask t s (idx + 1) :: attachOrders t rest (idx + 1)

/-! ## Lemmas about the decomposition loops -/

/-- When every step's action is `NO_ACTION`, the inspection loop changes
nothing: counter, accumulator and allow flag come back untouched. -/
theorem descLoop_all_no_action (steps : List PlanStep)
    (h : ∀ s ∈ steps, s.action = AgentActionEnum.NO_ACTION) :
    ∀ count acc allow, descLoop steps count acc allow = .ok (count, acc, allow) := by
  induction steps with
  | nil => intro count acc allow; rfl
  | cons s rest ih =>
    intro count acc allow
    have hs : s.action = AgentActionEnum.NO_ACTION := h s (List.mem_cons_self s rest)
    have hrest : ∀ t ∈ rest, t.action = AgentActionEnum.NO_ACTION := by
      intro t ht; exact h t (List.mem_cons_of_mem s ht)
    simp only [descLoop, hs, ne_eq, not_true_eq_false, if_false]
    exact ih hrest count acc allow

/-- The creation loop succeeds and appends exactly one row per step, each
built by `mkSubTask` with the running 1-based order. -/
theorem createLoop_eq (t : TaskRec) (steps : List PlanStep) :
    ∀ idx rows, createLoop t steps idx rows = .ok (rows ++ attachOrders t steps idx) := by
  induction steps with
  | nil => intro idx rows; simp [createLoop, attachOrders]
  | cons s rest ih =>
    intro idx rows
    simp only [createLoop, createSubTask, ne_eq, not_true_eq_false, if_false,
      attachOrders]
    rw [ih (idx + 1) _]
    simp [mkSubTask]

/-- `attachOrders` produces one row per step. -/
theorem attachOrders_length (t : TaskRec) (steps : List PlanStep) :
    ∀ idx, (attachOrders t steps idx).length = steps.length := by
  induction steps with
  | nil => intro idx; rfl
  | cons s rest ih => intro idx; simp [attachOrders, ih]

/-- The `order` column of the created rows is the dense 1-based sequence
starting after `idx`. -/
theorem attachOrders_orders (t : TaskRec) (steps : List PlanStep) :
    ∀ idx, (attachOrders t steps idx).map SubTask.order =
      (List.range steps.length).map (fun i => some (idx + i + 1)) := by
  induction steps with
  | nil => intro idx; rfl
  | cons s rest ih =>
    intro idx
    simp only [attachOrders, List.map_cons, mkSubTask, List.length_cons,
      List.range_succ_eq_map, List.map_map]
    rw [ih (idx + 1)]
    congr 1
    apply List.map_congr_left
    intro a _
    simp only [Function.comp_apply]
    congr 1
    omega

/-- Every created row is an INIT-status row owned by the task. -/
theorem attachOrders_mem (t : TaskRec) (steps : List PlanStep) :
    ∀ idx sub, sub ∈ attachOrders t steps idx →
      sub.status = TaskStatusEnum.INIT ∧ sub.taskId = t.id ∧
      sub.projectId = t.projectId := by
  induction steps with
  | nil => intro idx sub h; cases h
  | cons s rest ih =>
    intro idx sub h
    rcases List.mem_cons.mp h with h1 | h2
    · subst h1; exact ⟨rfl, rfl, rfl⟩
    · exact ih (idx + 1) sub h2

/-- The `i`-th created row is `mkSubTask` of the `i`-th plan step with the
running order. -/
theorem attachOrders_get? (t : TaskRec) (steps : List PlanStep) :
    ∀ idx i s, steps.get? i = some s →
      (attachOrders t steps idx).get? i = some (mkSubTask t s (idx + i + 1)) := by
  induction steps with
  | nil => intro idx i s h; cases h
  | cons a rest ih =>
    intro idx i s h
    cases i with
    | zero =>
      simp only [List.get?] at h
      cases h
      rfl
    | succ j =>
      simp only [List.get?] at h
      have := ih (idx + 1) j s h
      simp only [attachOrders, List.get?]
      rw [this]
      congr 2
      omega

/-- Claim C1 — For every Plan whose steps all have action NO_ACTION,
decomposition succeeds, persists exactly N sub-tasks (one per plan step, in
plan sequence, text `step.task.strip()`) with `order` = 1..N, each sub-task
initialized to status INIT, and the owning Task row is returned unchanged,
so its status stays INIT. -/
theorem C1_decomposition_all_no_action (t : TaskRec) (text : String) (plan : Plan)
    (hall : ∀ s ∈ plan.steps, s.action = AgentActionEnum.NO_ACTION)
    (hst : t.status = TaskStatusEnum.INIT) :
    ∃ subs,
      plannerDecompose t text plan =
        .ok (t, subs, { task := text, subTaskCreated := true,
                        actionDescriptions := "" }) ∧
      subs.length = plan.steps.length ∧
      subs.map SubTask.order =
        (List.range plan.steps.length).map (fun i => some (i + 1)) ∧
      (∀ i s, plan.steps.get? i = some s →
        subs.get? i = some (mkSubTask t s (i + 1))) ∧
      (∀ sub ∈ subs, sub.status = TaskStatusEnum.INIT ∧ sub.taskId = t.id) ∧
      t.status = TaskStatusEnum.INIT := by
  refine ⟨attachOrders t plan.steps 0, ?_, ?_, ?_, ?_, ?_, hst⟩
  · unfold plannerDecompose
    rw [descLoop_all_no_action plan.steps hall 0 "" true]
    simp only [if_true]
    rw [createLoop_eq t plan.steps 0 []]
    simp
  · exact attachOrders_length t plan.steps 0
  · have := attachOrders_orders t plan.steps 0
    rw [this]
    apply List.map_congr_left
    intro i _
    congr 1
    omega
  · intro i s hs
    have := attachOrders_get? t plan.steps 0 i s hs
    rw [this]
    congr 2
    omega
  · intro sub hsub
    have := attachOrders_mem t plan.steps 0 sub hsub
    exact ⟨this.1, this.2.1⟩

/-- Witness for C1: a one-step NO_ACTION plan concretely decomposes into one
INIT sub-task with order 1. -/
theorem C1_decomposition_all_no_action_witness :
    ∃ subs,
      plannerDecompose ⟨1, 2, "init"⟩ "What is the current ETH price?"
          ⟨[⟨"Fetch the current ETH price", [], "no_action"⟩]⟩ =
        .ok (⟨1, 2, "init"⟩, subs,
             { task := "What is the current ETH price?", subTaskCreated := true,
               actionDescriptions := "" }) ∧
      subs.length = 1 ∧
      subs.map SubTask.order = (List.range 1).map (fun i => some (i + 1)) ∧
      (∀ i s,
        ([⟨"Fetch the current ETH price", [], "no_action"⟩] :
          List PlanStep).get? i = some s →
        subs.get? i = some (mkSubTask ⟨1, 2, "init"⟩ s (i + 1))) ∧
      (∀ sub ∈ subs, sub.status = TaskStatusEnum.INIT ∧ sub.taskId = 1) ∧
      (⟨1, 2, "init"⟩ : TaskRec).status = TaskStatusEnum.INIT :=
  C1_decomposition_all_no_action ⟨1, 2, "init"⟩ "What is the current ETH price?"
    ⟨[⟨"Fetch the current ETH price", [], "no_action"⟩]⟩
    (by intro s hs; simp at hs; subst hs; rfl) rfl

/-- Claim C2 (code evaluation at the failing input) — On a plan containing a
non-NO_ACTION step the code never reaches the ACTION_REQUIRED update: it
raises `AttributeError` while reading `step.action_description`, a field the
`PlanStep` pydantic model does not define, so no status change and no
numbered description list are produced. -/
theorem C2_action_required_raises :
    plannerDecompose ⟨1, 2, "init"⟩ "Summarize this video"
        ⟨[⟨"Summarize this video", [], "input_media"⟩]⟩ =
      .error (.attributeError "action_description") := by
  rfl

/-! ## Tool registry (src/api/src/agent/tools/tools_index.py) and per-message
    tool-set resolution (conversation_service.py lines 165-190). -/

/-- The Python files under `src/agent/tools/agentic` together with the
functions each file defines under a plain `@tool` decorator — the marker
`find_tool_functions` looks for (an `ast.Name` decorator with id `tool`).
One entry per source file:
datetime_tool.py defines `get_current_datetime`;
etch_blockchain_tool.py defines `ethereum_blockchain_tool`;
eth_blockchain_tool.py also defines `ethereum_blockchain_tool`;
web_search_tool.py defines `web_search_tool`. -/
def agenticToolFiles : List (String × List String) :=
  [("datetime_tool.py", ["get_current_datetime"]),
   ("etch_blockchain_tool.py", ["ethereum_blockchain_tool"]),
   ("eth_blockchain_tool.py", ["ethereum_blockchain_tool"]),
   ("web_search_tool.py", ["web_search_tool"])]

/-- The tool names `find_tool_functions` discovers over the agentic
directory, in scan order (the registered langchain tool name is the
decorated function's name). -/
def registryToolNames : List String := (agenticToolFiles.map Prod.snd).flatten

/-- Side effects of one registry construction: directory scans performed and
`spec.loader.exec_module` invocations (tools_index.py executes the
containing module once per discovered `@tool` function). -/
structure ScanEffect where
  scans : Nat
  moduleExecs : Nat
deriving DecidableEq, Repr

/-- Pointwise sum of scan effects. -/
def ScanEffect.add (a b : ScanEffect) : ScanEffect :=
  ⟨a.scans + b.scans, a.moduleExecs + b.moduleExecs⟩

/-- `get_all_tools()` with `tools_path=None` (tools_index.py lines 58-75):
walks `src/agent/tools/agentic`, parses every Python file, and for each
`@tool`-decorated function re-executes its module and records the function;
returns the discovered tools together with the work performed. -/
def getAllToolsAgentic : List String × ScanEffect :=
  (registryToolNames, ⟨1, registryToolNames.length⟩)

/-- `ConversationService.send_message` tool resolution
(conversation_service.py lines 171-184): call `get_all_tools()` and keep the
tools whose `name` is among the project's configured `function_name`
strings; when that list is empty, call `get_all_tools()` again and append
the `get_current_datetime` tool if present.  Returns the resolved tool
names and the accumulated scan effects. -/
def resolveToolsEff (configured : List String) : List String × ScanEffect :=
  let (reg, eff1) := getAllToolsAgentic
  let tools := reg.filter (fun n => configured.contains n)
  if tools.length = 0 then
    let (reg2, eff2) := getAllToolsAgentic
    match reg2.find? (fun n => n = "get_current_datetime") with
    | some dt => (tools ++ [dt], eff1.add eff2)
    | none => (tools, eff1.add eff2)
  else
    (tools, eff1)

/-- The resolved tool names alone. -/
def resolveTools (configured : List String) : List String :=
  (resolveToolsEff configured).1

/-- Resolution characterized: the filtered registry when nonempty, the
single default tool otherwise; effects: one scan of the 4-function tree,
or two when the fallback branch re-scans. -/
theorem resolveToolsEff_eq (configured : List String) :
    resolveToolsEff configured =
      if (registryToolNames.filter (fun n => configured.contains n)).length = 0 then
        (["get_current_datetime"], ⟨2, 8⟩)
      else
        (registryToolNames.filter (fun n => configured.contains n), ⟨1, 4⟩) := by
  have hfind : registryToolNames.find? (fun n => n = "get_current_datetime") =
      some "get_current_datetime" := by rfl
  by_cases h : (registryToolNames.filter (fun n => configured.contains n)).length = 0
  · rw [if_pos h]
    unfold resolveToolsEff getAllToolsAgentic
    simp only [if_pos h, hfind]
    rw [List.eq_nil_of_length_eq_zero h]
    rfl
  · rw [if_neg h]
    unfold resolveToolsEff getAllToolsAgentic
    simp only [if_neg h]
    rfl

/-- Claim C3 — Per-message tool resolution returns exactly the registry
names that the project configured (exact, case-sensitive string match, in
registry order), silently drops configured names unknown to the registry
without raising, and whenever the intersection is empty it returns exactly
the single default introspection tool `get_current_datetime`; the resolved
list is never empty. -/
theorem C3_tool_resolution (configured : List String) :
    (registryToolNames.filter (fun n => configured.contains n) ≠ [] →
      resolveTools configured =
        registryToolNames.filter (fun n => configured.contains n)) ∧
    (registryToolNames.filter (fun n => configured.contains n) = [] →
      resolveTools configured = ["get_current_datetime"]) ∧
    (∀ n ∈ resolveTools configured, n ∈ registryToolNames) ∧
    (∀ n ∈ configured, n ∉ registryToolNames → n ∉ resolveTools configured) ∧
    resolveTools configured ≠ [] := by
  have hdt : "get_current_datetime" ∈ registryToolNames := by decide
  unfold resolveTools
  rw [resolveToolsEff_eq configured]
  by_cases h : (registryToolNames.filter (fun n => configured.contains n)).length = 0
  · have hnil : registryToolNames.filter (fun n => configured.contains n) = [] :=
      List.eq_nil_of_length_eq_zero h
    rw [if_pos h]
    refine ⟨fun hne => absurd hnil hne, fun _ => rfl, ?_, ?_, by simp⟩
    · intro n hn
      rw [List.mem_singleton] at hn
      subst hn
      exact hdt
    · intro n _ hnr hmem
      rw [List.mem_singleton] at hmem
      subst hmem
      exact absurd hdt hnr
  · have hne : registryToolNames.filter (fun n => configured.contains n) ≠ [] := by
      intro h0
      exact h (by rw [h0]; rfl)
    rw [if_neg h]
    refine ⟨fun _ => rfl, fun he => absurd he hne, ?_, ?_, hne⟩
    · intro n hn
      exact List.mem_of_mem_filter hn
    · intro n _ hnr hmem
      exact hnr (List.mem_of_mem_filter hmem)

/-- Witness for C3: a project configured with an unknown tool name plus
`web_search_tool` resolves to exactly `web_search_tool`. -/
theorem C3_tool_resolution_witness :
    resolveTools ["unknown_tool", "web_search_tool"] = ["web_search_tool"] :=
  (C3_tool_resolution ["unknown_tool", "web_search_tool"]).1 (by decide)

/-! ## Containment decorators (src/api/src/agent/tools/shared_tools.py). -/

/-- A generic raised exception carrying the Python message and class name
(`str(e)` and `e.__class__.__name__`). -/
structure PyExc where
  msg : String
  cls : String
deriving DecidableEq, Repr

/-- `handle_exceptions` (shared_tools.py lines 98-125): run the body; on a
raised exception return the string
`f"Error: \x7bstr(e)\x7d, Class: \x7be.__class__.__name__\x7d"` instead of
re-raising; otherwise return the body's result unchanged.  The wrapper is
total: its codomain has no exception component at all. -/
def handleExceptions {α β : Type} (f : α → Except PyExc β) (x : α) : β ⊕ String :=
  match f x with
  | .ok v => Sum.inl v
  | .error e => Sum.inr ("Error: " ++ e.msg ++ ", Class: " ++ e.cls)

/-- Claim C4 — For every wrapped tool body and every input: if the body
raises, the call returns a descriptive string result holding the exception
message and class name (a `Sum.inr` string — by the wrapper's type no
exception can cross the boundary); if the body does not raise, its result
is returned unchanged. -/
theorem C4_handle_exceptions {α β : Type} (f : α → Except PyExc β) (x : α) :
    (∀ e, f x = .error e →
      handleExceptions f x = Sum.inr ("Error: " ++ e.msg ++ ", Class: " ++ e.cls)) ∧
    (∀ v, f x = .ok v → handleExceptions f x = Sum.inl v) := by
  constructor
  · intro e he
    unfold handleExceptions
    rw [he]
  · intro v hv
    unfold handleExceptions
    rw [hv]

/-- Witness for C4: a body raising `ValueError("boom")` yields the
descriptive string, and a body returning `"ok"` is relayed unchanged. -/
theorem C4_handle_exceptions_witness :
    handleExceptions (fun _ : Unit => (.error ⟨"boom", "ValueError"⟩ : Except PyExc String)) () =
      Sum.inr "Error: boom, Class: ValueError" ∧
    handleExceptions (fun _ : Unit => (.ok "ok" : Except PyExc String)) () =
      Sum.inl "ok" :=
  ⟨(C4_handle_exceptions (fun _ : Unit => (.error ⟨"boom", "ValueError"⟩ : Except PyExc String)) ()).1
      ⟨"boom", "ValueError"⟩ rfl,
   (C4_handle_exceptions (fun _ : Unit => (.ok "ok" : Except PyExc String)) ()).2 "ok" rfl⟩

/-! ## The `timeout` decorator (shared_tools.py lines 38-95).
    The body runs in a separate worker process which enqueues
    `('result', value)` or `('error', e)` when it finishes; the wrapper
    joins the process with a wall-clock budget.  Wall-clock time is embedded
    as abstract `Nat` units: the body needs `duration` units; `join(seconds)`
    returns after `min duration seconds` units. -/

/-- A tool body as the worker process sees it: it runs for `duration`
time units and then either returns a value or raises. -/
structure WorkerBody (β : Type) where
  duration : Nat
  outcome : Except PyExc β

/-- What the `timeout` wrapper call produced: the relayed or raised result,
the wall-clock units the caller waited, and whether the worker process was
forcibly terminated. -/
structure TimeoutCall (β : Type) where
  result : Except PyExc β
  wait : Nat
  workerKilled : Bool

/-- The message of the `TimeoutException` raised by the wrapper
(shared_tools.py lines 82-83). -/
def timeoutMessage (seconds : Nat) : String :=
  "Function timed out after " ++ toString seconds ++ " seconds"

/-- `timeout(seconds)` applied to a body (shared_tools.py lines 50-92):
start the worker, `join` with the budget; if the worker is still alive,
terminate it and raise `TimeoutException`; otherwise take the worker's
queued outcome and re-raise its error or return its result unchanged.
(The code's final queue-empty fallback is unreachable here because the
embedded worker always enqueues its outcome before exiting.) -/
def timeoutRun {β : Type} (seconds : Nat) (body : WorkerBody β) : TimeoutCall β :=
  if seconds < body.duration then
    { result := .error ⟨timeoutMessage seconds, "TimeoutException"⟩,
      wait := seconds, workerKilled := true }
  else
    { result := body.outcome, wait := body.duration, workerKilled := false }

/-- Claim C6 — Under a wall-clock budget: a body exceeding the budget has
its worker process terminated and the call raises the distinguished
`TimeoutException` (class name unlike any ordinary error) after waiting
only the budget, never hanging; a body finishing within the budget has its
result or raised exception relayed unchanged; in every case the caller
waits at most the budget. -/
theorem C6_timeout_containment {β : Type} (seconds : Nat) (body : WorkerBody β) :
    (seconds < body.duration →
      timeoutRun seconds body =
        { result := .error ⟨timeoutMessage seconds, "TimeoutException"⟩,
          wait := seconds, workerKilled := true }) ∧
    (body.duration ≤ seconds →
      timeoutRun seconds body =
        { result := body.outcome, wait := body.duration, workerKilled := false }) ∧
    (timeoutRun seconds body).wait ≤ seconds := by
  refine ⟨?_, ?_, ?_⟩
  · intro h
    unfold timeoutRun
    rw [if_pos h]
  · intro h
    unfold timeoutRun
    rw [if_neg (Nat.not_lt.mpr h)]
  · unfold timeoutRun
    by_cases h : seconds < body.duration
    · rw [if_pos h]
    · rw [if_neg h]
      exact Nat.not_lt.mp h

/-- Witness for C6: a 5-unit body under a 1-unit budget times out with the
distinguished message after waiting 1 unit; a 1-unit body under a 5-unit
budget has its raised `ValueError` relayed unchanged. -/
theorem C6_timeout_containment_witness :
    timeoutRun 1 (⟨5, .ok "done"⟩ : WorkerBody String) =
      { result := .error ⟨timeoutMessage 1, "TimeoutException"⟩,
        wait := 1, workerKilled := true } ∧
    timeoutRun 5 (⟨1, .error ⟨"bad", "ValueError"⟩⟩ : WorkerBody String) =
      { result := .error ⟨"bad", "ValueError"⟩, wait := 1, workerKilled := false } :=
  ⟨(C6_timeout_containment 1 (⟨5, .ok "done"⟩ : WorkerBody String)).1 (by decide),
   (C6_timeout_containment 5 (⟨1, .error ⟨"bad", "ValueError"⟩⟩ : WorkerBody String)).2.1
     (by decide)⟩

/-! ## The plan generator call (agent_service.py lines 50-80). -/

/-- The one structured-output model call built by `AgentService.planner`:
`planner_prompt | ChatOpenAI(model="gpt-4o-mini", temperature=0)
.with_structured_output(Plan)`.  `promptActionLabels` are the action values
the system instructions tell the model to choose among (agent_service.py
lines 66-70). -/
structure StructuredPlannerCall where
  model : String
  temperature : Nat
  promptActionLabels : List String
  responseSchema : String
deriving DecidableEq, Repr

/-- The planner pipeline as constructed in the source. -/
def plannerCall : StructuredPlannerCall :=
  { model := "gpt-4o-mini", temperature := 0,
    promptActionLabels := ["tool_picked", "no_tool_need", "no_tool_found"],
    responseSchema := "Plan" }

/-- `TaskService._planner` invokes the planner pipeline exactly once per
task (task_service.py lines 30-40). -/
def plannerModelCalls : Nat := 1

/-- Claim C7 (code evaluation) — The planner does issue exactly one
structured-output call at temperature zero, but its system instructions
enumerate the action labels tool_picked / no_tool_need / no_tool_found,
none of which is among the `AgentActionEnum` values (no_action /
input_text / input_media) that the decomposer compares against. -/
theorem C7_planner_prompt_mismatch :
    plannerCall.temperature = 0 ∧
    plannerModelCalls = 1 ∧
    plannerCall.promptActionLabels = ["tool_picked", "no_tool_need", "no_tool_found"] ∧
    plannerCall.promptActionLabels.all
      (fun l => !(agentActionValues.contains l)) = true := by
  exact ⟨rfl, rfl, rfl, by decide⟩

/-! ## Registry construction effects (C8). -/

/-- Counterexample to claim C8 — resolving a tool set for one message is
not effect-free against a start-up-built registry: it performs one full
source-tree scan with four module re-executions (two scans and eight
re-executions when the project configures no known tool), refuting
"does not re-scan the source tree or re-execute tool modules". -/
theorem C8_registry_counterexample :
    (resolveToolsEff ["web_search_tool"]).2 = ⟨1, 4⟩ ∧
    (resolveToolsEff []).2 = ⟨2, 8⟩ ∧
    (resolveToolsEff ["web_search_tool"]).2.scans ≠ 0 := by
  decide

/-- Claim C8 as amended — Every per-message tool-set resolution re-runs the
registry construction: it scans the agentic source tree once (twice when
the configured-name intersection is empty, for the fallback lookup) and
re-executes each of the four tool modules per scan; at least one scan and
four module executions happen on every resolution. -/
theorem C8_registry_rescans (configured : List String) :
    (resolveToolsEff configured).2 =
      (if (registryToolNames.filter (fun n => configured.contains n)).length = 0
       then ⟨2, 8⟩ else ⟨1, 4⟩) ∧
    1 ≤ (resolveToolsEff configured).2.scans ∧
    4 ≤ (resolveToolsEff configured).2.moduleExecs := by
  rw [resolveToolsEff_eq configured]
  by_cases h : (registryToolNames.filter (fun n => configured.contains n)).length = 0
  · rw [if_pos h]
    exact ⟨by rw [if_pos h], (by decide : (1 : Nat) ≤ 2), (by decide : (4 : Nat) ≤ 8)⟩
  · rw [if_neg h]
    exact ⟨by rw [if_neg h], Nat.le_refl 1, Nat.le_refl 4⟩

/-! ## `init_llm` (shared_tools.py lines 128-201). -/

/-- The constructed chat model, reduced to the fields `init_llm` sets:
the backend service, the model name, the api key handed over (absent for
the huggingface and ollama constructors, which take none) and the
constructor's `streaming` flag (`ChatHuggingFace` takes no streaming
argument; its default leaves streaming off). -/
structure ChatModel where
  service : String
  modelName : String
  apiKey : Option String
  streamingFlag : Bool
deriving DecidableEq, Repr

/-- `init_llm(service, model_name, api_key, stream, callbacks)`
(shared_tools.py lines 128-201): dispatch on the service string; the
"openai" branch hard-codes `streaming=False`; "google", "groq",
"fireworks", "together" and "ollama" pass `streaming=stream`; an unknown
service raises `NotImplementedError`. -/
def initLlm (service modelName apiKey : String) (stream : Bool) :
    Except PyExc ChatModel :=
  if service = "openai" then
    .ok { service := "openai", modelName := modelName, apiKey := some apiKey,
          streamingFlag := false }
  else if service = "google" then
    .ok { service := "google", modelName := modelName, apiKey := some apiKey,
          streamingFlag := stream }
  else if service = "groq" then
    .ok { service := "groq", modelName := modelName, apiKey := some apiKey,
          streamingFlag := stream }
  else if service = "fireworks" then
    .ok { service := "fireworks", modelName := modelName, apiKey := some apiKey,
          streamingFlag := stream }
  else if service = "together" then
    .ok { service := "together", modelName := modelName, apiKey := some apiKey,
          streamingFlag := stream }
  else if service = "huggingface" then
    .ok { service := "huggingface", modelName := modelName, apiKey := none,
          streamingFlag := false }
  else if service = "ollama" then
    .ok { service := "ollama", modelName := modelName, apiKey := none,
          streamingFlag := stream }
  else
    .error ⟨"Service " ++ service ++ " is not supported.", "NotImplementedError"⟩

/-- Modelled from the spec (§6 model-serving backend, an external
collaborator whose code is not in this repository): the backend delivers
`on_llm_new_token` callbacks only when the constructed model has streaming
enabled; with streaming disabled the completion arrives whole and no token
events are emitted. -/
def emittedTokenEvents (llm : ChatModel) (toks : List String) : List String :=
  if llm.streamingFlag then toks else []

/-- `DataProviderAgentService.__init__` (agent_service.py lines 137-141)
builds its model by `init_llm(..., stream=streaming, ...)`; these are the
token events its handler would enqueue for a run producing `toks`. -/
def engineTokenEvents (service modelName apiKey : String) (streaming : Bool)
    (toks : List String) : List String :=
  match initLlm service modelName apiKey streaming with
  | .ok llm => emittedTokenEvents llm toks
  | .error _ => []

/-- Claim C10 — `init_llm` with service "openai" constructs the chat model
with streaming disabled regardless of the `stream` argument, while for
"google", "groq", "fireworks", "together" and "ollama" the constructed
model's streaming flag equals `stream`; consequently an engine configured
with the openai service and streaming enabled produces no token events. -/
theorem C10_init_llm_streaming (m k : String) (s : Bool) (toks : List String) :
    initLlm "openai" m k s = .ok ⟨"openai", m, some k, false⟩ ∧
    initLlm "google" m k s = .ok ⟨"google", m, some k, s⟩ ∧
    initLlm "groq" m k s = .ok ⟨"groq", m, some k, s⟩ ∧
    initLlm "fireworks" m k s = .ok ⟨"fireworks", m, some k, s⟩ ∧
    initLlm "together" m k s = .ok ⟨"together", m, some k, s⟩ ∧
    initLlm "ollama" m k s = .ok ⟨"ollama", m, none, s⟩ ∧
    engineTokenEvents "openai" m k true toks = [] :=
  ⟨rfl, rfl, rfl, rfl, rfl, rfl, rfl⟩

/-! ## StreamBridge (agent_service.py lines 101-226).
    `StreamingCallbackHandler` owns an unbounded FIFO queue; the blocking
    agent invocation (the producer) enqueues items via `put_nowait` and then
    completes; `DataProviderAgentService.stream` (the consumer) loops
    `while not task.done() or not queue.empty()`, polling the queue with a
    bounded timeout and yielding each dequeued item.  We embed the seam as a
    small-step interleaving relation. -/

/-- Joint state of producer and consumer: the producer's not-yet-enqueued
items, the FIFO queue, whether the blocking task has completed
(`task.done()`), and the items the consumer has yielded so far. -/
structure BridgeState (α : Type) where
  pending : List α
  queue : List α
  finished : Bool
  out : List α
deriving DecidableEq, Repr

/-- One interleaving step of the relay.
`produce`: the running task enqueues its next item (`put_nowait`, FIFO).
`complete`: the task finishes, after having enqueued everything.
`consume`: `queue.get` returns the head item and the consumer yields it.
`poll`: the consumer's bounded wait times out on an empty queue and the
loop continues (`except asyncio.TimeoutError: continue`). -/
inductive BridgeStep {α : Type} : BridgeState α → BridgeState α → Prop where
  | produce (e : α) (p q out) :
      BridgeStep ⟨e :: p, q, false, out⟩ ⟨p, q ++ [e], false, out⟩
  | complete (q out) :
      BridgeStep ⟨[], q, false, out⟩ ⟨[], q, true, out⟩
  | consume (e : α) (p q d out) :
      BridgeStep ⟨p, e :: q, d, out⟩ ⟨p, q, d, out ++ [e]⟩
  | poll (p out) :
      BridgeStep ⟨p, [], false, out⟩ ⟨p, [], false, out⟩

/-- Any number of interleaved steps. -/
def BridgeReaches {α : Type} (s t : BridgeState α) : Prop :=
  Relation.ReflTransGen BridgeStep s t

/-- The start state for a scripted producer emitting `events`: the stream
method first drains leftovers, so the queue starts empty. -/
def initBridge {α : Type} (events : List α) : BridgeState α :=
  ⟨events, [], false, []⟩

/-- The consumer's loop exit: `task.done()` and the queue fully drained
(the negation of `while not task.done() or not queue.empty()`). -/
def BridgeState.terminal {α : Type} (s : BridgeState α) : Prop :=
  s.finished = true ∧ s.queue = []

/-- Relay invariant: yielded items, queued items and unproduced items
always concatenate to the scripted event list, and a completed producer has
nothing left to enqueue. -/
def BridgeInv {α : Type} (events : List α) (s : BridgeState α) : Prop :=
  s.out ++ s.queue ++ s.pending = events ∧ (s.finished = true → s.pending = [])

theorem bridgeInv_init {α : Type} (events : List α) :
    BridgeInv events (initBridge events) := by
  constructor
  · simp [initBridge]
  · intro h
    simp [initBridge] at h

theorem bridgeInv_step {α : Type} (events : List α) {s t : BridgeState α}
    (hstep : BridgeStep s t) (hinv : BridgeInv events s) : BridgeInv events t := by
  obtain ⟨hcat, hdone⟩ := hinv
  cases hstep with
  | produce e p q out =>
    refine ⟨?_, ?_⟩
    · simpa [List.append_assoc] using hcat
    · intro h; cases h
  | complete q out =>
    refine ⟨hcat, ?_⟩
    intro _; rfl
  | consume e p q d out =>
    refine ⟨?_, hdone⟩
    simpa [List.append_assoc] using hcat
  | poll p out =>
    exact ⟨hcat, hdone⟩

theorem bridgeInv_reaches {α : Type} (events : List α) {s t : BridgeState α}
    (h : BridgeReaches s t) (hinv : BridgeInv events s) : BridgeInv events t := by
  induction h with
  | refl => exact hinv
  | tail _ hstep ih => exact bridgeInv_step events hstep ih

/-- The producer can push all its remaining items into the queue. -/
theorem bridge_reaches_enqueue {α : Type} (p : List α) :
    ∀ q out, BridgeReaches (⟨p, q, false, out⟩ : BridgeState α) ⟨[], q ++ p, false, out⟩ := by
  induction p with
  | nil =>
    intro q out
    simpa using (Relation.ReflTransGen.refl :
      BridgeReaches (⟨[], q, false, out⟩ : BridgeState α) ⟨[], q, false, out⟩)
  | cons e p' ih =>
    intro q out
    have h1 : BridgeStep (⟨e :: p', q, false, out⟩ : BridgeState α)
        ⟨p', q ++ [e], false, out⟩ := BridgeStep.produce e p' q out
    have h2 := ih (q ++ [e]) out
    have := Relation.ReflTransGen.head h1 h2
    simpa [List.append_assoc] using this

/-- After completion the consumer can drain the queue, yielding every
queued item in order. -/
theorem bridge_reaches_drain {α : Type} (q : List α) :
    ∀ d out, BridgeReaches (⟨[], q, d, out⟩ : BridgeState α) ⟨[], [], d, out ++ q⟩ := by
  induction q with
  | nil =>
    intro d out
    simpa using (Relation.ReflTransGen.refl :
      BridgeReaches (⟨([] : List α), [], d, out⟩ : BridgeState α) ⟨[], [], d, out⟩)
  | cons e q' ih =>
    intro d out
    have h1 : BridgeStep (⟨[], e :: q', d, out⟩ : BridgeState α)
        ⟨[], q', d, out ++ [e]⟩ := BridgeStep.consume e [] q' d out
    have h2 := ih d (out ++ [e])
    have := Relation.ReflTransGen.head h1 h2
    simpa [List.append_assoc] using this

/-- A complete run exists: produce everything, complete, drain. -/
theorem bridge_reaches_final {α : Type} (events : List α) :
    BridgeReaches (initBridge events) (⟨[], [], true, events⟩ : BridgeState α) := by
  have h1 := bridge_reaches_enqueue (α := α) events [] []
  have h2 : BridgeStep (⟨[], [] ++ events, false, []⟩ : BridgeState α)
      ⟨[], [] ++ events, true, []⟩ := BridgeStep.complete ([] ++ events) []
  have h3 := bridge_reaches_drain (α := α) ([] ++ events) true []
  have := Relation.ReflTransGen.trans h1 (Relation.ReflTransGen.head h2 h3)
  simpa [initBridge] using this

/-- Claim C5 — For a scripted producer that enqueues `events` through the
streaming callback handler and then completes: every interleaved execution
of the relay that reaches the consumer's loop exit has yielded exactly the
scripted events, in producer order, each exactly once (items still queued
at completion are drained before the exit); and such a terminating
execution exists. -/
theorem C5_stream_bridge {α : Type} (events : List α) :
    (∀ s : BridgeState α, BridgeReaches (initBridge events) s → s.terminal →
      s.out = events) ∧
    (∃ s : BridgeState α, BridgeReaches (initBridge events) s ∧ s.terminal ∧
      s.out = events) := by
  constructor
  · intro s hr ht
    have hinv := bridgeInv_reaches events hr (bridgeInv_init events)
    obtain ⟨hcat, hdone⟩ := hinv
    obtain ⟨hfin, hq⟩ := ht
    have hp := hdone hfin
    rw [hq, hp] at hcat
    simpa using hcat
  · exact ⟨⟨[], [], true, events⟩, bridge_reaches_final events, ⟨rfl, rfl⟩, rfl⟩

/-- Witness for C5: with the two scripted events below, the drained final
state is terminal and has yielded exactly those events in order. -/
theorem C5_stream_bridge_witness :
    (⟨[], [], true, ["tok1", "tok2"]⟩ : BridgeState String).terminal ∧
    (⟨[], [], true, ["tok1", "tok2"]⟩ : BridgeState String).out = ["tok1", "tok2"] :=
  ⟨⟨rfl, rfl⟩,
   (C5_stream_bridge ["tok1", "tok2"]).1 ⟨[], [], true, ["tok1", "tok2"]⟩
     (bridge_reaches_final ["tok1", "tok2"]) ⟨rfl, rfl⟩⟩

/-! ## Tool-invocation trace visibility (C9).
    `ConversationService.send_message` first constructs
    `DataProviderAgentService(tools, memory, streaming=stream)`.  In
    `__init__` (agent_service.py lines 128-141) `self.streaming_handler` is
    assigned only under `if streaming:`, yet the `init_llm` call reads
    `self.streaming_handler` unconditionally for its callbacks list, so
    construction with `streaming=False` raises `AttributeError` and the
    non-streaming branch of `send_message` (lines 197-210, which would
    re-pack `intermediate_steps` as
    `\x7bfunction_name, arguments, output\x7d` dicts) is never reached.
    Streaming: construction succeeds and the caller receives only the JSON
    lines the `StreamingCallbackHandler` enqueued — `on_llm_new_token`
    gives `\x7btype, data\x7d` and `on_agent_action` gives
    `\x7btype, tool, tool_input\x7d` (no tool output; there is no
    `on_tool_end` hook) — while `stream` discards the awaited `result`
    (agent_service.py line 226). -/

/-- One executed tool call as recorded in `intermediate_steps`:
`step[0].tool`, `step[0].tool_input` and `step[1]`, the raw output. -/
structure ToolInvocation where
  tool : String
  toolInput : String
  output : String
deriving DecidableEq, Repr

/-- One engine invocation: the ordered tool calls it executed, the answer
tokens produced, and the final output text. -/
structure AgentRun where
  actions : List ToolInvocation
  tokens : List String
  finalOutput : String
deriving DecidableEq, Repr

/-- The events `StreamingCallbackHandler` can enqueue
(agent_service.py lines 110-120): a token event carrying the token text, or
a tool-start event carrying the tool name and its input — no constructor
carries a tool output. -/
inductive StreamEv where
  | token (data : String)
  | toolStart (tool : String) (toolInput : String)
deriving DecidableEq, Repr

/-- The newline-delimited JSON line `put_nowait` enqueues for an event
(`json.dumps(event) + "\n"`). -/
def encodeEv : StreamEv → String
  | .token d =>
      "\x7b\"type\": \"token\", \"data\": \"" ++ d ++ "\"\x7d\n"
  | .toolStart t i =>
      "\x7b\"type\": \"tool_start\", \"tool\": \"" ++ t ++
        "\", \"tool_input\": \"" ++ i ++ "\"\x7d\n"

/-- The callback events a run fires: one `tool_start` per executed action
(from `on_agent_action`) and one `token` per produced token (from
`on_llm_new_token`).  Callbacks fire in execution order; since no event
payload depends on a tool's output, the canonical actions-then-tokens
order is immaterial to the properties proved below. -/
def producerEvents (run : AgentRun) : List StreamEv :=
  run.actions.map (fun a => .toolStart a.tool a.toolInput) ++
    run.tokens.map .token

/-- Everything the streaming caller receives from
`DataProviderAgentService.stream`: the encoded queue items, and nothing
else — the awaited `result` is dropped. -/
def streamDelivered (run : AgentRun) : List String :=
  (producerEvents run).map encodeEv

/-- The full ordered trace of tool invocations, as the claim demands it:
name, arguments, raw output per entry. -/
def runTrace (run : AgentRun) : List (String × String × String) :=
  run.actions.map (fun a => (a.tool, a.toolInput, a.output))

/-- `DataProviderAgentService.__init__` handler setup
(agent_service.py lines 128-141): `self.streaming_handler` is assigned
only when `streaming` is true, and the constructor then reads
`self.streaming_handler` unconditionally, so constructing the engine with
`streaming=False` raises
`AttributeError("streaming_handler")`. -/
def dataProviderAgentInit (streaming : Bool) : Except PyError Bool :=
  if streaming then .ok streaming
  else .error (.attributeError "streaming_handler")

/-- What `send_message` delivers to the caller for a run, by mode
(conversation_service.py lines 190-210): construct the engine, then either
relay the streamed queue lines (`Sum.inl`) or — in the branch the
`AttributeError` at construction makes unreachable — the final response
plus the re-packed `intermediate_steps` (`Sum.inr`). -/
def sendMessageDelivered (stream : Bool) (run : AgentRun) :
    Except PyError ((List String) ⊕ (String × List (String × String × String))) :=
  match dataProviderAgentInit stream with
  | .error e => .error e
  | .ok _ =>
    if stream then
      .ok (Sum.inl (streamDelivered run))
    else
      .ok (Sum.inr (run.finalOutput,
        run.actions.map (fun a => (a.tool, a.toolInput, a.output))))

/-- A run with every tool output rewritten by `f`; tool names, inputs,
tokens and the final text are untouched. -/
def mapOutputs (run : AgentRun) (f : String → String) : AgentRun :=
  { run with actions := run.actions.map (fun a => { a with output := f a.output }) }

/-- A concrete streaming run whose single tool call produced "out42". -/
def c9Run : AgentRun :=
  { actions := [⟨"web_search_tool", "eth price today", "out42"⟩],
    tokens := ["The", " price"], finalOutput := "The price" }

/-- The same run except the tool's raw output was "out43". -/
def c9RunAlt : AgentRun :=
  { actions := [⟨"web_search_tool", "eth price today", "out43"⟩],
    tokens := ["The", " price"], finalOutput := "The price" }

/-- Counterexample to claim C9 — In streaming mode the full tool trace is
not made available to the caller: two runs whose tool invocations differ in
their raw output are indistinguishable from everything the streaming caller
receives, so no caller can recover the trace from a streamed invocation. -/
theorem C9_trace_counterexample :
    streamDelivered c9Run = streamDelivered c9RunAlt ∧
    runTrace c9Run ≠ runTrace c9RunAlt := by
  constructor
  · rfl
  · decide

/-- Claim C9 as amended — The full tool trace reaches the caller in neither
mode: in streaming mode the caller receives only the token and tool-start
lines, which are independent of every tool's raw output (the awaited
result holding the trace is discarded); in non-streaming mode engine
construction raises `AttributeError` — `streaming_handler` is set only
when streaming is enabled but read unconditionally — so the branch that
would return the trace is never reached. -/
theorem C9_trace_retention (run : AgentRun) (f : String → String) :
    sendMessageDelivered true run = .ok (Sum.inl (streamDelivered run)) ∧
    streamDelivered (mapOutputs run f) = streamDelivered run ∧
    sendMessageDelivered false run = .error (.attributeError "streaming_handler") := by
  refine ⟨rfl, ?_, rfl⟩
  unfold streamDelivered producerEvents mapOutputs
  simp [List.map_map]

end PatternCore
